import Mathlib

/-!
Verification of the presigned-URL construction and transfer logic of
`s3presigurls.py` (class `YandexS3PresignedURLManager` and `main`).

The pure parts of the Python code are embedded as Lean functions.
External collaborators (the boto3 signer, the `requests` HTTP transport,
the `xml.etree` parser, the filesystem) are modelled as oracle arguments:
each oracle value is the result the external call would produce, and the
embedded function performs exactly the control flow the source performs on
that result.
-/

/-- A policy condition of the POST upload policy built by
`create_presigned_post_url`: the Python code uses the list literal
`["content-length-range", 1, max]` for the size bound and one-entry dicts
`{field: value}` for exact matches. -/
inductive Condition where
  | sizeRange (min max : Nat)
  | exactMatch (field value : String)
deriving DecidableEq, Repr

/-- The (fields, conditions) pair that `create_presigned_post_url` builds and
passes to `generate_presigned_post`.  Python's insertion-ordered dict of form
fields is an association list in insertion order. -/
structure UploadPolicy where
  fields : List (String × String)
  conditions : List Condition
deriving DecidableEq, Repr

/-- Python truthiness of an `Optional[str]`: `None` and `""` are falsy. -/
def pyTruthyOpt : Option String → Bool
  | none => false
  | some s => s != ""

/-- The policy constructed by `create_presigned_post_url` (lines 93-114 of
`s3presigurls.py`) before it is handed to the external signer
`generate_presigned_post`: conditions start with the content-length-range and
the key/bucket exact matches, the fields mirror key/bucket, and the `acl` and
`Content-Type` entries are appended to both lists when the corresponding
argument is truthy (`if acl:` / `if content_type:`). -/
def create_presigned_post_url (bucket_name object_name : String)
    (max_size_mb : Nat) (content_type : Option String) (acl : String) :
    UploadPolicy :=
  let conditions0 : List Condition :=
    [.sizeRange 1 (max_size_mb * 1024 * 1024),
     .exactMatch "key" object_name,
     .exactMatch "bucket" bucket_name]
  let fields0 : List (String × String) :=
    [("key", object_name), ("bucket", bucket_name)]
  let conditions1 :=
    if acl != "" then conditions0 ++ [.exactMatch "acl" acl] else conditions0
  let fields1 :=
    if acl != "" then fields0 ++ [("acl", acl)] else fields0
  if pyTruthyOpt content_type then
    { fields := fields1 ++ [("Content-Type", content_type.getD "")],
      conditions := conditions1 ++ [.exactMatch "Content-Type" (content_type.getD "")] }
  else
    { fields := fields1, conditions := conditions1 }

/-- The (field, value) pair of an exact-match condition, `none` for the size
range. -/
def exactPair : Condition → Option (String × String)
  | .exactMatch f v => some (f, v)
  | .sizeRange _ _ => none

/-- Whether a condition is the content-length-range condition. -/
def isSizeRange : Condition → Bool
  | .sizeRange _ _ => true
  | .exactMatch _ _ => false

/-- Whether a condition constrains the form field named `s`. -/
def namesField : Condition → String → Bool
  | .exactMatch f _, s => f == s
  | .sizeRange _ _, _ => false

/-- Claim C1: the built policy satisfies field/condition symmetry — the
exact-match conditions, projected to (field, value) pairs, are exactly the
fields mapping in the same order, the field names are pairwise distinct (so
each field corresponds to exactly one exact-match condition), and when both
`content_type` and `acl` are provided (truthy) the fields are exactly
key, bucket, acl, Content-Type and the conditions are exactly
[SizeRange, key, bucket, acl, Content-Type] in that order. -/
theorem create_post_policy_symmetry (b k : String) (msz : Nat)
    (ct : Option String) (acl : String) :
    (create_presigned_post_url b k msz ct acl).conditions.filterMap exactPair
      = (create_presigned_post_url b k msz ct acl).fields
    ∧ ((create_presigned_post_url b k msz ct acl).fields.map Prod.fst).Nodup
    ∧ (acl ≠ "" → ∀ c, ct = some c → c ≠ "" →
        (create_presigned_post_url b k msz ct acl).fields
          = [("key", k), ("bucket", b), ("acl", acl), ("Content-Type", c)]
        ∧ (create_presigned_post_url b k msz ct acl).conditions
          = [.sizeRange 1 (msz * 1024 * 1024), .exactMatch "key" k,
             .exactMatch "bucket" b, .exactMatch "acl" acl,
             .exactMatch "Content-Type" c]) := by
  refine ⟨?_, ?_, ?_⟩
  · cases ct with
    | none =>
      by_cases h : acl = "" <;>
        simp [create_presigned_post_url, pyTruthyOpt, exactPair, h]
    | some c =>
      by_cases h : acl = "" <;> by_cases hc : c = "" <;>
        simp [create_presigned_post_url, pyTruthyOpt, exactPair, h, hc]
  · cases ct with
    | none =>
      by_cases h : acl = "" <;>
        simp [create_presigned_post_url, pyTruthyOpt, h]
    | some c =>
      by_cases h : acl = "" <;> by_cases hc : c = "" <;>
        simp [create_presigned_post_url, pyTruthyOpt, h, hc]
  · intro ha c hct hc
    subst hct
    simp [create_presigned_post_url, pyTruthyOpt, ha, hc]

/-- Claim C1 witness at concrete inputs. -/
theorem create_post_policy_symmetry_witness :
    (create_presigned_post_url "b" "k" 5 (some "image/jpeg") "private").fields
      = [("key", "k"), ("bucket", "b"), ("acl", "private"),
         ("Content-Type", "image/jpeg")]
    ∧ (create_presigned_post_url "b" "k" 5 (some "image/jpeg") "private").conditions
      = [.sizeRange 1 (5 * 1024 * 1024), .exactMatch "key" "k",
         .exactMatch "bucket" "b", .exactMatch "acl" "private",
         .exactMatch "Content-Type" "image/jpeg"] :=
  (create_post_policy_symmetry "b" "k" 5 (some "image/jpeg") "private").2.2
    (by decide) "image/jpeg" rfl (by decide)

/-- Claim C2: for `max_size_mb ≥ 1` the conditions contain exactly one
size-range condition, with minimum 1 and maximum `max_size_mb * 1048576`. -/
theorem create_post_policy_size (b k : String) (msz : Nat)
    (ct : Option String) (acl : String) (_h : 1 ≤ msz) :
    (create_presigned_post_url b k msz ct acl).conditions.filter isSizeRange
      = [.sizeRange 1 (msz * 1048576)] := by
  have hmul : msz * 1024 * 1024 = msz * 1048576 := by
    rw [Nat.mul_assoc]
  cases ct with
  | none =>
    by_cases ha : acl = "" <;>
      simp [create_presigned_post_url, pyTruthyOpt, isSizeRange, ha, hmul]
  | some c =>
    by_cases ha : acl = "" <;> by_cases hc : c = "" <;>
      simp [create_presigned_post_url, pyTruthyOpt, isSizeRange, ha, hc, hmul]

/-- Claim C2 witness at concrete inputs. -/
theorem create_post_policy_size_witness :
    (create_presigned_post_url "b" "k" 5 (some "image/jpeg") "private").conditions.filter isSizeRange
      = [.sizeRange 1 (5 * 1048576)] :=
  create_post_policy_size "b" "k" 5 (some "image/jpeg") "private" (by decide)

/-- Claim C3: regardless of argument values, no field and no condition of the
built policy names the `success_action_status` post-upload status control. -/
theorem create_post_policy_no_success_action_status (b k : String) (msz : Nat)
    (ct : Option String) (acl : String) :
    ((create_presigned_post_url b k msz ct acl).fields.all
        (fun kv => !(kv.1 == "success_action_status"))) = true
    ∧ ((create_presigned_post_url b k msz ct acl).conditions.all
        (fun c => !(namesField c "success_action_status"))) = true := by
  cases ct with
  | none =>
    by_cases ha : acl = "" <;>
      simp [create_presigned_post_url, pyTruthyOpt, namesField, ha]
  | some c =>
    by_cases ha : acl = "" <;> by_cases hc : c = "" <;>
      simp [create_presigned_post_url, pyTruthyOpt, namesField, ha, hc]

/-- Claim C10: an empty-string `acl` yields no acl condition and no acl field,
and an empty-string `content_type` behaves exactly like an absent one and
yields no Content-Type condition or field: presence is tested by Python
truthiness. -/
theorem create_post_policy_empty_string_args (b k : String) (msz : Nat)
    (ct : Option String) (acl : String) :
    ((create_presigned_post_url b k msz ct "").fields.all
        (fun kv => !(kv.1 == "acl"))) = true
    ∧ ((create_presigned_post_url b k msz ct "").conditions.all
        (fun c => !(namesField c "acl"))) = true
    ∧ create_presigned_post_url b k msz (some "") acl
        = create_presigned_post_url b k msz none acl
    ∧ ((create_presigned_post_url b k msz (some "") acl).fields.all
        (fun kv => !(kv.1 == "Content-Type"))) = true
    ∧ ((create_presigned_post_url b k msz (some "") acl).conditions.all
        (fun c => !(namesField c "Content-Type"))) = true := by
  refine ⟨?_, ?_, ?_, ?_, ?_⟩
  · cases ct with
    | none => simp [create_presigned_post_url, pyTruthyOpt, namesField]
    | some c =>
      by_cases hc : c = "" <;>
        simp [create_presigned_post_url, pyTruthyOpt, namesField, hc]
  · cases ct with
    | none => simp [create_presigned_post_url, pyTruthyOpt, namesField]
    | some c =>
      by_cases hc : c = "" <;>
        simp [create_presigned_post_url, pyTruthyOpt, namesField, hc]
  · simp [create_presigned_post_url, pyTruthyOpt]
  · by_cases ha : acl = "" <;>
      simp [create_presigned_post_url, pyTruthyOpt, namesField, ha]
  · by_cases ha : acl = "" <;>
      simp [create_presigned_post_url, pyTruthyOpt, namesField, ha]

/-- Python's substring test `sub in s`, by character list. -/
def strHasSub (s sub : String) : Bool :=
  (List.range (s.data.length + 1)).any
    (fun i => (s.data.drop i).take sub.data.length == sub.data)

/-- Result of an external HTTP call made through `requests`: a response, a
`requests.exceptions.Timeout`, or another exception (whose rendered message
is carried). -/
inductive HttpOutcome (ρ : Type) where
  | resp (r : ρ)
  | timeout
  | exc (msg : String)

/-- The parts of a `requests` POST response that
`upload_file_via_presigned_post` inspects: the status code, the body text,
and — as an oracle for the external `xml.etree.ElementTree.fromstring` call
on that text — the root element's direct children as (tag, text) pairs, or
`none` when parsing raises. -/
structure PostResponse where
  status_code : Nat
  text : String
  parsedXml : Option (List (String × Option String))

/-- `ElementTree` `root.find(tag)`: the first direct child with the given
tag, returning its text (an element may have `text = None`). -/
def etFind (children : List (String × Option String)) (tag : String) :
    Option (Option String) :=
  (children.find? (fun c => c.1 == tag)).map (fun c => c.2)

/-- Python's f-string rendering of an `Optional[str]`. -/
def pyStr : Option String → String
  | none => "None"
  | some s => s

/-- `upload_file_via_presigned_post` (lines 166-243 of `s3presigurls.py`),
with the filesystem check `os.path.exists(file_path)` and the `requests.post`
call as oracles.  Form construction and content-type inference only shape the
outgoing request (external) and are not modelled.  Returns the (success,
message) tuple the Python function returns, paired with a flag recording
whether the POST was issued. -/
def upload_file_via_presigned_post (file_path : String) (file_exists : Bool)
    (http : HttpOutcome PostResponse) : (Bool × String) × Bool :=
  if !file_exists then
    ((false, "Файл не найден: " ++ file_path), false)
  else
    match http with
    | .timeout => ((false, "Таймаут при загрузке файла"), true)
    | .exc m => ((false, "Ошибка при загрузке файла: " ++ m), true)
    | .resp r =>
      if r.status_code ∈ ([200, 201, 204] : List Nat) then
        let base := "Файл успешно загружен. Статус: " ++ toString r.status_code
        let msg :=
          if r.text != "" then base ++ "\nОтвет сервера: " ++ r.text.take 200
          else base
        ((true, msg), true)
      else
        let base := "Ошибка загрузки. Статус: " ++ toString r.status_code
        let msg :=
          if r.text != "" then
            let m1 := base ++ "\nОтвет сервера: " ++ r.text
            if strHasSub r.text "<?xml" then
              match r.parsedXml with
              | none => m1
              | some children =>
                match etFind children "Code", etFind children "Message" with
                | some ctext, some mtext =>
                  m1 ++ "\nКод ошибки: " ++ pyStr ctext
                     ++ "\nСообщение: " ++ pyStr mtext
                | _, _ => m1
            else m1
          else base
        ((false, msg), true)

/-- Claim C4: with an existing file and a received response, status 200, 201
or 204 yields success; any other status yields failure with the numeric
status code in the message; when the body is an XML error document whose
parse produced `<Code>` and `<Message>` texts, the message contains both; and
when the body is nonempty but the parse fails, the message still contains the
raw body. -/
theorem upload_status_classification (p : String) (r : PostResponse) :
    (r.status_code ∈ ([200, 201, 204] : List Nat) →
      (upload_file_via_presigned_post p true (.resp r)).1.1 = true)
    ∧ (r.status_code ∉ ([200, 201, 204] : List Nat) →
        (upload_file_via_presigned_post p true (.resp r)).1.1 = false
        ∧ (∃ pre suf, (upload_file_via_presigned_post p true (.resp r)).1.2
            = pre ++ toString r.status_code ++ suf)
        ∧ (∀ children ctext mtext,
            r.parsedXml = some children →
            etFind children "Code" = some (some ctext) →
            etFind children "Message" = some (some mtext) →
            r.text ≠ "" → strHasSub r.text "<?xml" = true →
            (∃ pre suf, (upload_file_via_presigned_post p true (.resp r)).1.2
              = pre ++ ctext ++ suf)
            ∧ (∃ pre suf, (upload_file_via_presigned_post p true (.resp r)).1.2
              = pre ++ mtext ++ suf))
        ∧ (r.text ≠ "" → r.parsedXml = none →
            ∃ pre, (upload_file_via_presigned_post p true (.resp r)).1.2
              = pre ++ r.text)) := by
  constructor
  · intro hmem
    simp [upload_file_via_presigned_post, hmem]
  · intro hmem
    refine ⟨?_, ?_, ?_, ?_⟩
    · simp [upload_file_via_presigned_post, hmem]
    · by_cases ht : r.text = ""
      · refine ⟨"Ошибка загрузки. Статус: ", "", ?_⟩
        simp [upload_file_via_presigned_post, hmem, ht, String.append_empty]
      · by_cases hx : strHasSub r.text "<?xml" = true
        · cases hpx : r.parsedXml with
          | none =>
            refine ⟨"Ошибка загрузки. Статус: ",
                    "\nОтвет сервера: " ++ r.text, ?_⟩
            simp [upload_file_via_presigned_post, hmem, ht, hx, hpx,
              String.append_assoc]
          | some children =>
            cases hc : etFind children "Code" with
            | none =>
              refine ⟨"Ошибка загрузки. Статус: ",
                      "\nОтвет сервера: " ++ r.text, ?_⟩
              simp [upload_file_via_presigned_post, hmem, ht, hx, hpx, hc,
                String.append_assoc]
            | some ctext =>
              cases hm : etFind children "Message" with
              | none =>
                refine ⟨"Ошибка загрузки. Статус: ",
                        "\nОтвет сервера: " ++ r.text, ?_⟩
                simp [upload_file_via_presigned_post, hmem, ht, hx, hpx, hc,
                  hm, String.append_assoc]
              | some mtext =>
                refine ⟨"Ошибка загрузки. Статус: ",
                        "\nОтвет сервера: " ++ r.text ++ "\nКод ошибки: "
                          ++ pyStr ctext ++ "\nСообщение: " ++ pyStr mtext, ?_⟩
                simp [upload_file_via_presigned_post, hmem, ht, hx, hpx, hc,
                  hm, String.append_assoc]
        · refine ⟨"Ошибка загрузки. Статус: ",
                  "\nОтвет сервера: " ++ r.text, ?_⟩
          simp [upload_file_via_presigned_post, hmem, ht, hx,
            String.append_assoc]
    · intro children ctext mtext hpx hc hm ht hx
      constructor
      · refine ⟨"Ошибка загрузки. Статус: " ++ toString r.status_code
            ++ "\nОтвет сервера: " ++ r.text ++ "\nКод ошибки: ",
          "\nСообщение: " ++ pyStr mtext, ?_⟩
        simp [upload_file_via_presigned_post, hmem, ht, hx, hpx, hc, hm,
          pyStr, String.append_assoc]
      · refine ⟨"Ошибка загрузки. Статус: " ++ toString r.status_code
            ++ "\nОтвет сервера: " ++ r.text ++ "\nКод ошибки: "
            ++ pyStr ctext ++ "\nСообщение: ", "", ?_⟩
        simp [upload_file_via_presigned_post, hmem, ht, hx, hpx, hc, hm,
          pyStr, String.append_empty, String.append_assoc]
    · intro ht hpx
      by_cases hx : strHasSub r.text "<?xml" = true
      · refine ⟨"Ошибка загрузки. Статус: " ++ toString r.status_code
            ++ "\nОтвет сервера: ", ?_⟩
        simp [upload_file_via_presigned_post, hmem, ht, hx, hpx,
          String.append_assoc]
      · refine ⟨"Ошибка загрузки. Статус: " ++ toString r.status_code
            ++ "\nОтвет сервера: ", ?_⟩
        simp [upload_file_via_presigned_post, hmem, ht, hx,
          String.append_assoc]

/-- Claim C6: a nonexistent file makes `upload_file_via_presigned_post`
return success = false with a file-not-found message naming the path, and the
POST is never issued. -/
theorem upload_missing_file (p : String) (http : HttpOutcome PostResponse) :
    (upload_file_via_presigned_post p false http).1
      = (false, "Файл не найден: " ++ p)
    ∧ (upload_file_via_presigned_post p false http).2 = false
    ∧ ∃ pre, (upload_file_via_presigned_post p false http).1.2 = pre ++ p :=
  ⟨rfl, rfl, "Файл не найден: ", rfl⟩

/-- The characters of `cs` before the first double quote, or `none` when no
double quote follows — the `[^"]+` group of the filename regular expression
has to stop at and consume a closing quote. -/
def takeUntilQuote : List Char → Option (List Char)
  | [] => none
  | c :: rest =>
    if c = '"' then some [] else (takeUntilQuote rest).map (fun l => c :: l)

/-- One attempt of the pattern of `re.search(r'filename="([^"]+)"', s)` at a
fixed position: the literal `filename="`, then at least one non-quote
character, then a closing quote; returns the group. -/
def matchFilenameAt (cs : List Char) : Option String :=
  if cs.take 10 = "filename=\"".data then
    match takeUntilQuote (cs.drop 10) with
    | some name => if name = [] then none else some (String.mk name)
    | none => none
  else none

/-- Leftmost match of `re.search(r'filename="([^"]+)"', ·)`, returning the
captured group. -/
def reSearchFilename (s : String) : Option String :=
  go s.data
where
  go : List Char → Option String
    | [] => none
    | l@(_ :: rest) =>
      match matchFilenameAt l with
      | some name => some name
      | none => go rest

/-- The last path segment of a URL with any query string stripped:
`url.split('?')[0].split('/')[-1]`. -/
def lastSegment (url : String) : String :=
  (((url.splitOn "?").headD "").splitOn "/").getLastD ""

/-- Destination-filename resolution of `download_file_via_presigned_url`
(lines 289-308 of `s3presigurls.py`) when no output path is given: the quoted
filename from the Content-Disposition header when the header contains
`filename=` and the regular expression matches, else the URL's last path
segment with the query string stripped, else `downloaded_file`. -/
def resolveFilename (content_disp url : String) : String :=
  let fromHeader : Option String :=
    if strHasSub content_disp "filename=" then reSearchFilename content_disp
    else none
  match fromHeader with
  | some name => name
  | none =>
    let seg := lastSegment url
    if seg = "" then "downloaded_file" else seg

/-- Groups of three characters, taken from the front. -/
def chunk3 : List Char → List (List Char)
  | [] => []
  | a :: b :: c :: rest => [a, b, c] :: chunk3 rest
  | l => [l]

/-- Python's `f"{n:,}"` thousands-separated rendering of a natural number. -/
def pyCommaFmt (n : Nat) : String :=
  String.mk (((chunk3 (toString n).data.reverse).intersperse [',']).flatten.reverse)

/-- The parts of a `requests` GET response that
`download_file_via_presigned_url` inspects: the status code, the
Content-Disposition header when present, and the sizes of the body chunks
delivered by `iter_content`. -/
structure GetResponse where
  status_code : Nat
  contentDisposition : Option String
  chunks : List Nat

/-- The byte count accumulated by the download write loop: empty chunks are
skipped by `if chunk:`, every other chunk is written and counted. -/
def sumChunks (chunks : List Nat) : Nat :=
  (chunks.filter (fun n => n != 0)).sum

/-- `download_file_via_presigned_url` (lines 272-333 of `s3presigurls.py`),
with the `requests.get` call as an oracle.  Returns the (success, message)
tuple the Python function returns, paired with `some (save_path, total_size)`
when the destination file was opened and written, `none` when the function
returned before any write. -/
def download_file_via_presigned_url (presigned_url : String)
    (output_path : Option String) (http : HttpOutcome GetResponse) :
    (Bool × String) × Option (String × Nat) :=
  match http with
  | .timeout => ((false, "Таймаут при скачивании файла"), none)
  | .exc m => ((false, "Ошибка при скачивании файла: " ++ m), none)
  | .resp r =>
    if r.status_code ≠ 200 then
      ((false, "Ошибка скачивания. Статус: " ++ toString r.status_code), none)
    else
      let save_path :=
        match output_path with
        | some p => p
        | none => resolveFilename (r.contentDisposition.getD "") presigned_url
      let total_size := sumChunks r.chunks
      ((true, "Файл сохранен: " ++ save_path ++ " ("
          ++ pyCommaFmt total_size ++ " bytes)"),
       some (save_path, total_size))

/-- Claim C7: a transport timeout in either executor yields success = false
with the fixed timeout message, which contains no decimal digit and is
therefore distinguishable from every status-code failure message. -/
theorem transfer_timeout_distinct (p url : String) (op : Option String) :
    (upload_file_via_presigned_post p true .timeout).1
      = (false, "Таймаут при загрузке файла")
    ∧ ((upload_file_via_presigned_post p true .timeout).1.2.data.all
        (fun c => !c.isDigit)) = true
    ∧ (download_file_via_presigned_url url op .timeout).1
      = (false, "Таймаут при скачивании файла")
    ∧ ((download_file_via_presigned_url url op .timeout).1.2.data.all
        (fun c => !c.isDigit)) = true :=
  ⟨rfl, rfl, rfl, rfl⟩

/-- Claim C9: a non-200 download response yields success = false with the
status code in the message, and nothing is written to local storage. -/
theorem download_non_200_no_write (url : String) (op : Option String)
    (r : GetResponse) (h : r.status_code ≠ 200) :
    (download_file_via_presigned_url url op (.resp r)).1.1 = false
    ∧ (∃ pre suf, (download_file_via_presigned_url url op (.resp r)).1.2
        = pre ++ toString r.status_code ++ suf)
    ∧ (download_file_via_presigned_url url op (.resp r)).2 = none := by
  refine ⟨?_, ⟨"Ошибка скачивания. Статус: ", "", ?_⟩, ?_⟩
  · simp [download_file_via_presigned_url, h]
  · simp [download_file_via_presigned_url, h, String.append_empty]
  · simp [download_file_via_presigned_url, h]

/-- Claim C9 witness at concrete inputs. -/
theorem download_non_200_no_write_witness :
    (download_file_via_presigned_url "https://s/b/k" none
        (.resp ⟨403, none, [100]⟩)).1.1 = false
    ∧ (∃ pre suf, (download_file_via_presigned_url "https://s/b/k" none
        (.resp ⟨403, none, [100]⟩)).1.2 = pre ++ toString 403 ++ suf)
    ∧ (download_file_via_presigned_url "https://s/b/k" none
        (.resp ⟨403, none, [100]⟩)).2 = none :=
  download_non_200_no_write "https://s/b/k" none ⟨403, none, [100]⟩ (by decide)

/-- Claim C8: with no output path and a 200 response, the destination
filename follows the precedence: the quoted filename from a well-formed
Content-Disposition header; else the URL's last path segment with the query
string stripped, when nonempty; else the fixed fallback `downloaded_file`. -/
theorem download_filename_precedence (url : String) (r : GetResponse)
    (h200 : r.status_code = 200) :
    (∀ name, strHasSub (r.contentDisposition.getD "") "filename=" = true →
      reSearchFilename (r.contentDisposition.getD "") = some name →
      (download_file_via_presigned_url url none (.resp r)).2
        = some (name, sumChunks r.chunks))
    ∧ (reSearchFilename (r.contentDisposition.getD "") = none →
        lastSegment url ≠ "" →
        (download_file_via_presigned_url url none (.resp r)).2
          = some (lastSegment url, sumChunks r.chunks))
    ∧ (reSearchFilename (r.contentDisposition.getD "") = none →
        lastSegment url = "" →
        (download_file_via_presigned_url url none (.resp r)).2
          = some ("downloaded_file", sumChunks r.chunks)) := by
  refine ⟨?_, ?_, ?_⟩
  · intro name hin hre
    simp [download_file_via_presigned_url, h200, resolveFilename, hin, hre]
  · intro hre hseg
    by_cases hin : strHasSub (r.contentDisposition.getD "") "filename=" = true <;>
      simp [download_file_via_presigned_url, h200, resolveFilename, hin, hre,
        hseg]
  · intro hre hseg
    by_cases hin : strHasSub (r.contentDisposition.getD "") "filename=" = true <;>
      simp [download_file_via_presigned_url, h200, resolveFilename, hin, hre,
        hseg]

/-- Claim C4 witness at concrete inputs: status 403 with an XML error body
whose parse produced Code `AccessDenied` and Message `Access Denied`. -/
theorem upload_status_classification_witness :
    (403 ∈ ([200, 201, 204] : List Nat) → False)
    ∧ (upload_file_via_presigned_post "local.txt" true
        (.resp ⟨403, "<?xml version=\"1.0\"?><Error><Code>AccessDenied</Code></Error>",
          some [("Code", some "AccessDenied"), ("Message", some "Access Denied")]⟩)).1.1
      = false
    ∧ (∃ pre suf, (upload_file_via_presigned_post "local.txt" true
        (.resp ⟨403, "<?xml version=\"1.0\"?><Error><Code>AccessDenied</Code></Error>",
          some [("Code", some "AccessDenied"), ("Message", some "Access Denied")]⟩)).1.2
      = pre ++ "AccessDenied" ++ suf) := by
  have h := (upload_status_classification "local.txt"
    ⟨403, "<?xml version=\"1.0\"?><Error><Code>AccessDenied</Code></Error>",
      some [("Code", some "AccessDenied"), ("Message", some "Access Denied")]⟩).2
    (by decide)
  exact ⟨by decide, h.1,
    (h.2.2.1 [("Code", some "AccessDenied"), ("Message", some "Access Denied")]
      "AccessDenied" "Access Denied" rfl (by decide) (by decide) (by decide)
      (by decide)).1⟩

/-- Claim C8 witness at concrete inputs: a quoted Content-Disposition
filename wins over the URL segment. -/
theorem download_filename_precedence_witness :
    (download_file_via_presigned_url "https://s/b/urlname.bin?X-Sig=1" none
        (.resp ⟨200, some "attachment; filename=\"realname.txt\"", [3, 5]⟩)).2
      = some ("realname.txt", sumChunks [3, 5]) :=
  (download_filename_precedence "https://s/b/urlname.bin?X-Sig=1"
      ⟨200, some "attachment; filename=\"realname.txt\"", [3, 5]⟩ rfl).1
    "realname.txt" (by decide) (by decide)

/-- The CLI action selected by `--action`. -/
inductive CliAction where
  | generate
  | upload
  | download
deriving DecidableEq

/-- Result of one external step executed inside `main`'s `try` block: a
normal return, a `KeyboardInterrupt` escaping the call, or another exception
escaping the call. -/
inductive PyCall (α : Type) where
  | ok (a : α)
  | interrupt
  | raised
deriving DecidableEq

/-- Oracles for the external steps of `main`: manager construction (which
re-raises its failures), `create_presigned_post_url` (returning `None` on a
signing failure), `upload_file_via_presigned_post`,
`create_presigned_get_url` (returning `None` on failure), and
`download_file_via_presigned_url`.  The transfer functions catch their own
exceptions and return (success, message) tuples. -/
structure MainEnv where
  init : PyCall Unit
  presignPost : PyCall (Option UploadPolicy)
  uploadResult : PyCall (Bool × String)
  presignGet : PyCall (Option String)
  downloadResult : PyCall (Bool × String)

/-- The process exit code of `main` (lines 336-546 of `s3presigurls.py`)
after argument parsing, as a function of the action, the `--file` value, and
the external-step oracles.  `sys.exit(n)` raises `SystemExit`, and
`KeyboardInterrupt` is a `BaseException`, so neither is caught by the
`except Exception` handler; `except KeyboardInterrupt` exits 130; `except
Exception` exits 1; falling off the end of `main` exits 0. -/
def mainExit (action : CliAction) (file : Option String) (env : MainEnv) :
    Nat :=
  match env.init with
  | .interrupt => 130
  | .raised => 1
  | .ok _ =>
    match action with
    | .generate =>
      match env.presignPost with
      | .interrupt => 130
      | .raised => 1
      | .ok none => 1
      | .ok (some _) => 0
    | .upload =>
      if !pyTruthyOpt file then 1
      else
        match env.presignPost with
        | .interrupt => 130
        | .raised => 1
        | .ok none => 1
        | .ok (some _) =>
          match env.uploadResult with
          | .interrupt => 130
          | .raised => 1
          | .ok (true, _) => 0
          | .ok (false, _) => 1
    | .download =>
      match env.presignGet with
      | .interrupt => 130
      | .raised => 1
      | .ok none => 1
      | .ok (some _) =>
        match env.downloadResult with
        | .interrupt => 130
        | .raised => 1
        | .ok (true, _) => 0
        | .ok (false, _) => 1

/-- Claim C5: `main` exits 0 on success, 1 on every classified failure
(missing `--file` flag for upload, signing failure, non-success transfer
outcome — which covers a missing local file — and unexpected exceptions), and
130 on user interrupt; no other exit code is produced by this control
flow. -/
theorem main_exit_codes (action : CliAction) (file : Option String)
    (env : MainEnv) :
    (mainExit action file env = 0 ∨ mainExit action file env = 1
      ∨ mainExit action file env = 130)
    ∧ (env.init = .interrupt → mainExit action file env = 130)
    ∧ (env.init = .raised → mainExit action file env = 1)
    ∧ (env.init = .ok () → action = .upload → pyTruthyOpt file = false →
        mainExit action file env = 1)
    ∧ (env.init = .ok () → action = .generate →
        (env.presignPost = .ok none → mainExit action file env = 1)
        ∧ (∀ pol, env.presignPost = .ok (some pol) →
            mainExit action file env = 0)
        ∧ (env.presignPost = .interrupt → mainExit action file env = 130))
    ∧ (env.init = .ok () → action = .upload → pyTruthyOpt file = true →
        (env.presignPost = .ok none → mainExit action file env = 1)
        ∧ (∀ pol m, env.presignPost = .ok (some pol) →
            (env.uploadResult = .ok (false, m) → mainExit action file env = 1)
            ∧ (env.uploadResult = .ok (true, m) → mainExit action file env = 0)
            ∧ (env.uploadResult = .interrupt → mainExit action file env = 130))
        ∧ (env.presignPost = .interrupt → mainExit action file env = 130))
    ∧ (env.init = .ok () → action = .download →
        (env.presignGet = .ok none → mainExit action file env = 1)
        ∧ (∀ u m, env.presignGet = .ok (some u) →
            (env.downloadResult = .ok (false, m) →
              mainExit action file env = 1)
            ∧ (env.downloadResult = .ok (true, m) →
              mainExit action file env = 0)
            ∧ (env.downloadResult = .interrupt →
              mainExit action file env = 130))
        ∧ (env.presignGet = .interrupt → mainExit action file env = 130)) := by
  obtain ⟨i, pp, ur, pg, dr⟩ := env
  refine ⟨?_, ?_, ?_, ?_, ?_, ?_, ?_⟩
  · cases i with
    | ok a =>
      cases action with
      | generate =>
        rcases pp with (_ | pol) | _ | _ <;> simp [mainExit]
      | upload =>
        by_cases hf : pyTruthyOpt file = true
        · rcases pp with (_ | pol) | _ | _
          · simp [mainExit, hf]
          · rcases ur with ⟨b, m⟩ | _ | _
            · cases b <;> simp [mainExit, hf]
            · simp [mainExit, hf]
            · simp [mainExit, hf]
          · simp [mainExit, hf]
          · simp [mainExit, hf]
        · have hf2 : pyTruthyOpt file = false := by
            cases hpt : pyTruthyOpt file with
            | false => rfl
            | true => exact absurd hpt hf
          simp [mainExit, hf2]
      | download =>
        rcases pg with (_ | u) | _ | _
        · simp [mainExit]
        · rcases dr with ⟨b, m⟩ | _ | _
          · cases b <;> simp [mainExit]
          · simp [mainExit]
          · simp [mainExit]
        · simp [mainExit]
        · simp [mainExit]
    | interrupt => simp [mainExit]
    | raised => simp [mainExit]
  · intro h; cases h; simp [mainExit]
  · intro h; cases h; simp [mainExit]
  · intro h hact hf; cases h; cases hact; simp [mainExit, hf]
  · intro h hact; cases h; cases hact
    exact ⟨fun h2 => by cases h2; simp [mainExit],
      fun pol h2 => by cases h2; simp [mainExit],
      fun h2 => by cases h2; simp [mainExit]⟩
  · intro h hact hf; cases h; cases hact
    refine ⟨fun h2 => by cases h2; simp [mainExit, hf], ?_,
      fun h2 => by cases h2; simp [mainExit, hf]⟩
    intro pol m h2; cases h2
    exact ⟨fun h3 => by cases h3; simp [mainExit, hf],
      fun h3 => by cases h3; simp [mainExit, hf],
      fun h3 => by cases h3; simp [mainExit, hf]⟩
  · intro h hact; cases h; cases hact
    refine ⟨fun h2 => by cases h2; simp [mainExit], ?_,
      fun h2 => by cases h2; simp [mainExit]⟩
    intro u m h2; cases h2
    exact ⟨fun h3 => by cases h3; simp [mainExit],
      fun h3 => by cases h3; simp [mainExit],
      fun h3 => by cases h3; simp [mainExit]⟩

/-- Claim C5 witness at concrete inputs: an upload whose transfer outcome is
a failure exits 1, and a user interrupt during the transfer exits 130. -/
theorem main_exit_codes_witness :
    mainExit .upload (some "local.txt")
      ⟨.ok (), .ok (some (create_presigned_post_url "b" "k" 10 none "private")),
        .ok (false, "Файл не найден: local.txt"), .ok none, .ok (true, "")⟩ = 1
    ∧ mainExit .upload (some "local.txt")
      ⟨.ok (), .ok (some (create_presigned_post_url "b" "k" 10 none "private")),
        .interrupt, .ok none, .ok (true, "")⟩ = 130 :=
  ⟨(((main_exit_codes .upload (some "local.txt")
      ⟨.ok (), .ok (some (create_presigned_post_url "b" "k" 10 none "private")),
        .ok (false, "Файл не найден: local.txt"), .ok none, .ok (true, "")⟩).2.2.2.2.2.1
      rfl rfl rfl).2.1 (create_presigned_post_url "b" "k" 10 none "private")
      "Файл не найден: local.txt" rfl).1 rfl,
   (((main_exit_codes .upload (some "local.txt")
      ⟨.ok (), .ok (some (create_presigned_post_url "b" "k" 10 none "private")),
        .interrupt, .ok none, .ok (true, "")⟩).2.2.2.2.2.1
      rfl rfl rfl).2.1 (create_presigned_post_url "b" "k" 10 none "private")
      "" rfl).2.2 rfl⟩
